import Mathlib

/-
Verification of the TRADELx trading-signal relay bot (app.py, alerts.py,
whatsapp.py) against its natural-language specification.

Modelling conventions:
* Strings are modelled as lists of Unicode code points (`List Nat`), so that
  the ASCII case-mapping, digit tests and substring scans of the Python code
  become plain `Nat` arithmetic.  The helper `str` converts a Lean string
  literal into this representation for concrete inputs.
* Python's `str.upper` is modelled on its ASCII fragment (all inputs in the
  repository are ASCII), `str.strip` on the ASCII whitespace characters
  Python treats as space.
* Wall-clock times (datetime values) are modelled as integers (seconds);
  `timedelta(days=30)` is `30 * 86400` seconds.  `datetime.fromisoformat`
  round-trips, so an expiry is `Option Int` (`none` models both a JSON null
  and an unparseable string — `check_subscriptions` skips both identically).
* Stateful methods become pure functions returning the new user collection
  together with the number of `save_users` storage writes they perform.
* Network transports (Twilio, OneSignal) are parameters: a transport is a
  function returning `Except` (an `Except.error` models a raised exception).
-/

/-- Strings as lists of Unicode code points. -/
abbrev Str := List Nat

/-- Convert a Lean string literal to the code-point representation. -/
def str (x : String) : Str := x.toList.map Char.toNat

/-- ASCII fragment of Python `str.upper` on one code point. -/
def upNat (c : Nat) : Nat := if 97 ≤ c ∧ c ≤ 122 then c - 32 else c

/-- Python `str.upper` (ASCII fragment), code-point-wise. -/
def pyUpper (t : Str) : Str := t.map upNat

/-- Python `\d` / `[0-9]` digit test (ASCII). -/
def isDigitNat (c : Nat) : Bool := 48 ≤ c ∧ c ≤ 57

/-- Python whitespace characters recognised by `str.strip` and `\s`
(space, tab, newline, vertical tab, form feed, carriage return). -/
def isPyWs (c : Nat) : Bool := c = 32 ∨ c = 9 ∨ c = 10 ∨ c = 11 ∨ c = 12 ∨ c = 13

/-- Python substring containment `needle in hay`. -/
def containsSub (needle : Str) : Str → Bool
  | [] => needle.isPrefixOf ([] : Str)
  | c :: t => needle.isPrefixOf (c :: t) || containsSub needle t

/-- Source: `SIGNAL_KEYWORDS` from app.py. -/
def SIGNAL_KEYWORDS : List Str :=
  [str "BUY", str "SELL", str "LONG", str "SHORT",
   str "TP:", str "SL:", str "ENTRY", str "SIGNAL"]

/-- Source: `TRADING_PAIRS` from app.py (declared order matters for `extract_signal`). -/
def TRADING_PAIRS : List Str :=
  [str "BTC", str "ETH", str "XRP", str "SOL", str "ADA", str "BNB",
   str "USD", str "EUR", str "GBP", str "JPY", str "XAUUSD", str "GOLD"]

/-- Source: `is_trading_signal` from app.py.  The regex `\d+\.?\d*` of `has_numbers`
matches somewhere in `text` exactly when `text` contains a digit (the first
`\d+` needs one digit, and any digit starts a match), so `has_numbers` is a
digit-existence test on the raw text. -/
def is_trading_signal (text : Str) : Bool :=
  if text.isEmpty then false
  else
    let upper := pyUpper text
    let has_keyword := SIGNAL_KEYWORDS.any (fun k => containsSub k upper)
    let has_pair := TRADING_PAIRS.any (fun p => containsSub p upper)
    let has_numbers := text.any isDigitNat
    has_keyword && (has_pair || has_numbers)

/-- One attempt of the `find_value` regex `LABEL[:\s]+([0-9]+\.?[0-9]*)`
anchored at the start of `rest` (a suffix of the upper-cased text): the
label literally, then a maximal non-empty run of `:`/whitespace, then the
greedy capture `[0-9]+\.?[0-9]*`.  Separator characters and digits are
disjoint, so the regex engine's greedy matching needs no backtracking and
maximal-munch is exact. -/
def matchValueAt (label rest : Str) : Option Str :=
  if label.isPrefixOf rest then
    let r1 := rest.drop label.length
    let sep := r1.takeWhile (fun c => c == 58 || isPyWs c)
    if sep.isEmpty then none
    else
      let r2 := r1.drop sep.length
      let d1 := r2.takeWhile isDigitNat
      if d1.isEmpty then none
      else
        match r2.drop d1.length with
        | 46 :: r3 => some (d1 ++ 46 :: r3.takeWhile isDigitNat)
        | _ => some d1
  else none

/-- Source: `re.search` of the `find_value` pattern: the leftmost successful match,
found by trying every suffix of the text from the left. -/
def searchValue (label : Str) : Str → Option Str
  | [] => none
  | c :: t =>
    match matchValueAt label (c :: t) with
    | some v => some v
    | none => searchValue label t

/-- Source: `find_value` inside `extract_signal`: the captured numeral, or the
sentinel `"N/A"` when the pattern does not occur. -/
def find_value (upper label : Str) : Str :=
  match searchValue label upper with
  | some v => v
  | none => str "N/A"

/-- A signal record as built by `extract_signal` / consumed by the alert
system. -/
structure Signal where
  message : Str
  source : Str
  pair : Str
  action : Str
  entry : Str
  tp : Str
  sl : Str
  priority : Str
  timestamp : Str
deriving DecidableEq

/-- The pair-detection loop of `extract_signal`: the first token of `pairs`
(scanned in declared order) occurring in the upper-cased text, else `""`. -/
def firstPair (upper : Str) : List Str → Str
  | [] => []
  | p :: ps => if containsSub p upper then p else firstPair upper ps

/-- Source: `extract_signal` from app.py.  `now` models `datetime.now().isoformat()`;
it is irrelevant to every property below. -/
def extract_signal (now text : Str) : Signal :=
  let upper := pyUpper text
  let action :=
    if containsSub (str "BUY") upper || containsSub (str "LONG") upper then str "BUY"
    else if containsSub (str "SELL") upper || containsSub (str "SHORT") upper then str "SELL"
    else []
  let pair := firstPair upper TRADING_PAIRS
  let priority := if action = str "BUY" ∨ action = str "SELL" then str "high" else str "medium"
  { message := text
    source := str "whatsapp"
    pair := pair
    action := action
    entry := find_value upper (str "ENTRY")
    tp := find_value upper (str "TP")
    sl := find_value upper (str "SL")
    priority := priority
    timestamp := now }

/-- A subscriber record as built by `add_user` (a user dict has no
`push_token` key unless registered later; `user.get("push_token", "")`
makes the missing key the empty string, which is the field's default
here). -/
structure User where
  id : Str
  name : Str
  email : Str
  phone : Str
  country : Str
  plan : Str
  status : Str
  joined : Str
  expiry : Option Int
  alerts_received : Nat
  push_token : Str
deriving DecidableEq

/-- Source: `timedelta(days=30)` in seconds. -/
def thirtyDays : Int := 30 * 86400

/-- Source: `TradeLBot.get_active_users`. -/
def get_active_users (users : List User) : List User :=
  users.filter (fun u => u.status == str "active")

/-- Source: `TradeLBot.activate_user` at wall-clock time `now`: the first record
with the given id becomes active with expiry `now + 30 days` and one
`save_users` write happens; an unknown id changes nothing and writes
nothing.  Result: (users, found, storage writes). -/
def activate_user (now : Int) (uid : Str) : List User → List User × Bool × Nat
  | [] => ([], false, 0)
  | u :: rest =>
    if u.id = uid then
      ({ u with status := str "active", expiry := some (now + thirtyDays) } :: rest, true, 1)
    else
      let r := activate_user now uid rest
      (u :: r.1, r.2.1, r.2.2)

/-- Source: `TradeLBot.deactivate_user`: the first record with the given id becomes
inactive with one write; an unknown id changes nothing and writes nothing. -/
def deactivate_user (uid : Str) : List User → List User × Bool × Nat
  | [] => ([], false, 0)
  | u :: rest =>
    if u.id = uid then ({ u with status := str "inactive" } :: rest, true, 1)
    else
      let r := deactivate_user uid rest
      (u :: r.1, r.2.1, r.2.2)

/-- One record's step of `check_subscriptions`: an active user with a
parseable expiry strictly in the past flips to inactive; the `Bool` is the
`changed` contribution.  `expiry = none` covers both a JSON null and an
unparseable ISO string (the `except ValueError: pass` branch), which the
sweep skips identically. -/
def sweepUser (now : Int) (u : User) : User × Bool :=
  if u.status = str "active" then
    match u.expiry with
    | some e => if now > e then ({ u with status := str "inactive" }, true) else (u, false)
    | none => (u, false)
  else (u, false)

/-- Source: `TradeLBot.check_subscriptions`: sweep every record; one `save_users`
write happens exactly when some record changed, none otherwise. -/
def check_subscriptions (now : Int) (users : List User) : List User × Nat :=
  let stepped := users.map (sweepUser now)
  (stepped.map Prod.fst, if stepped.any Prod.snd then 1 else 0)

/-- A WhatsApp transport: destination phone and signal payload of
`WhatsAppService.send_alert`, returning the success flag, with
`Except.error` modelling a raised exception. -/
abbrev WaTransport := Str → Signal → Except Str Bool

/-- Source: `AlertSystem.send_whatsapp_alert`: calls the transport on the user's
phone; a raised exception is caught at this adapter boundary (`except
Exception`) and converted to the failure result `false`. -/
def send_whatsapp_alert (wa : WaTransport) (user : User) (signal : Signal) : Bool :=
  match wa user.phone signal with
  | Except.ok ok => ok
  | Except.error _ => false

/-- Outcome of one dispatch pass of `trigger_alerts`: the written-back user
collection, the ids of the users whose channels were attempted (in
iteration order), and the number of `save_users` writes. -/
structure DispatchResult where
  users : List User
  attempted : List Str
  writes : Nat
deriving DecidableEq

/-- The body of `for user in active_users` in `trigger_alerts`: when the
phone is non-empty both channel adapters are invoked (their results are
discarded by the loop) and the user's id is recorded as attempted; in every
case `alerts_received` is incremented afterwards — the increment sits
outside the `if user.get("phone")` guard.  The adapters catch internally,
so the `except` of the loop is never reached. -/
def dispatchStep (wa : WaTransport) (signal : Signal) (u : User) : User × List Str :=
  if u.phone.isEmpty then
    ({ u with alerts_received := u.alerts_received + 1 }, [])
  else
    let _sent := send_whatsapp_alert wa u signal
    ({ u with alerts_received := u.alerts_received + 1 }, [u.id])

/-- Source: `TradeLBot.trigger_alerts`: iterates `get_active_users()`; the user
dicts are shared with `self.users`, so each mutation lands in the full
collection, which is then written back by exactly one `save_users`. -/
def trigger_alerts (wa : WaTransport) (signal : Signal) (users : List User) : DispatchResult :=
  let stepped := users.map (fun u =>
    if u.status = str "active" then dispatchStep wa signal u else (u, []))
  { users := stepped.map Prod.fst
    attempted := (stepped.map Prod.snd).flatten
    writes := 1 }

/-- The OneSignal credentials of `AlertSystem.__init__` (empty when the
environment variables are unset). -/
structure AlertConfig where
  onesignal_app_id : Str
  onesignal_api_key : Str
deriving DecidableEq

/-- The OneSignal request payload (the fields relevant to the claims:
destination token, derived title, truncated body, originating signal). -/
structure PushPayload where
  app_id : Str
  player_id : Str
  title : Str
  body : Str
  data : Signal
deriving DecidableEq

/-- A push transport: payload ↦ provider response body, or `Except.error`
modelling a timeout or other raised exception. -/
abbrev PushTransport := PushPayload → Except Str Str

/-- Source: `AlertSystem.send_push_notification`: inert — returns `None` and makes
no network call — when either credential is unset; otherwise makes exactly
one network call, whose own timeout/exception degrades to `None`.  Result:
(returned value, network calls made). -/
def send_push_notification (cfg : AlertConfig) (net : PushTransport)
    (push_token : Str) (signal : Signal) : Option Str × List PushPayload :=
  if cfg.onesignal_app_id.isEmpty || cfg.onesignal_api_key.isEmpty then
    (none, [])
  else
    let title :=
      if ¬signal.action.isEmpty ∧ ¬signal.pair.isEmpty then
        str "🚨 TradeL: " ++ signal.action ++ str " " ++ signal.pair
      else str "🚨 TradeL Alert"
    let payload : PushPayload :=
      { app_id := cfg.onesignal_app_id
        player_id := push_token
        title := title
        body := signal.message.take 200
        data := signal }
    match net payload with
    | Except.ok r => (some r, [payload])
    | Except.error _ => (none, [payload])

/-- Source: `AlertSystem.trigger_phone_alarm`: no push attempt at all when the user
has no registered push token; otherwise defers to
`send_push_notification`.  Result: the network calls made. -/
def trigger_phone_alarm (cfg : AlertConfig) (net : PushTransport)
    (user : User) (signal : Signal) : List PushPayload :=
  if user.push_token.isEmpty then []
  else (send_push_notification cfg net user.push_token signal).2

/-- Python `str.strip()` (ASCII whitespace fragment). -/
def pyStrip (p : Str) : Str :=
  ((p.dropWhile isPyWs).reverse.dropWhile isPyWs).reverse

/-- Source: `WhatsAppService._normalise_phone`: `strip()`, then
`replace(" ", "").replace("-", "")` (delete every space and hyphen), then
drop one leading `+`, then rewrite a leading `0` to the country prefix
`234`. -/
def normalise_phone (phone : Str) : Str :=
  let p1 := (pyStrip phone).filter (fun c => c != 32 && c != 45)
  let p2 := if p1.head? = some 43 then p1.tail else p1
  if p2.head? = some 48 then str "234" ++ p2.tail else p2

/-- Spec-side (§4.1) keyword condition, following the spec's words: the
upper-cased text contains at least one keyword of the fixed set. -/
def specHasKeyword (text : Str) : Bool :=
  SIGNAL_KEYWORDS.any (fun k => containsSub k (pyUpper text))

/-- Spec-side pair condition: the upper-cased text contains at least one
instrument-pair token of the fixed set. -/
def specHasPair (text : Str) : Bool :=
  TRADING_PAIRS.any (fun p => containsSub p (pyUpper text))

/-- Spec-side numeral condition: the upper-cased text contains at least one
decimal/integer numeral — equivalently, a digit. -/
def specHasNumeral (text : Str) : Bool :=
  (pyUpper text).any isDigitNat

/-- Shape of the string captured by the `find_value` regex:
`[0-9]+\.?[0-9]*` — a non-empty digit run, optionally followed by a dot and
a digit run. -/
def numeralShape (v : Str) : Bool :=
  let d1 := v.takeWhile isDigitNat
  !d1.isEmpty &&
    (let r := v.drop d1.length
     r.isEmpty || (r.head? == some 46 && (r.drop 1).all isDigitNat))

/-- Lookup of the first record with a given id (the Python loops iterate
`self.users` in order and act on the first match). -/
def findUser (uid : Str) (users : List User) : Option User :=
  users.find? (fun u => u.id == uid)

/-- Demo subscriber record used by the concrete witnesses below. -/
def demoUser : User :=
  { id := str "TR1", name := str "Ada", email := [], phone := str "08012345678",
    country := str "NG", plan := str "basic", status := str "pending",
    joined := [], expiry := none, alerts_received := 0, push_token := [] }

/-- Always-succeeding WhatsApp transport, for concrete dispatch runs. -/
def okTransport : WaTransport := fun _ _ => Except.ok true

/-- Demo signal record used by concrete dispatch runs. -/
def demoSignal : Signal :=
  { message := str "BUY BTCUSD entry 50000 tp 51500 sl 49000",
    source := str "whatsapp", pair := str "BTC", action := str "BUY",
    entry := str "50000", tp := str "51500", sl := str "49000",
    priority := str "high", timestamp := [] }

/-! Helper lemmas. -/

/-- Upper-casing a code point does not create or destroy a digit. -/
theorem isDigitNat_upNat (c : Nat) : isDigitNat (upNat c) = isDigitNat c := by
  unfold upNat isDigitNat
  split
  · rename_i h
    exact decide_eq_decide.mpr (by omega)
  · rfl

/-- Digit existence is invariant under Python upper-casing. -/
theorem any_isDigitNat_pyUpper (t : Str) : (pyUpper t).any isDigitNat = t.any isDigitNat := by
  unfold pyUpper
  rw [List.any_map]
  congr 1
  funext c
  exact isDigitNat_upNat c

/-- C2: for every text, `is_trading_signal` returns true iff the upper-cased
text contains a keyword of the fixed set and additionally contains an
instrument-pair token or a numeral; consequently any input with a keyword
and a numeral classifies true, and any input with neither a pair nor a
numeral classifies false even when a keyword is present. -/
theorem is_trading_signal_iff_spec (text : Str) :
    (is_trading_signal text = true ↔
      specHasKeyword text = true ∧ (specHasPair text = true ∨ specHasNumeral text = true)) ∧
    (specHasKeyword text = true → specHasNumeral text = true → is_trading_signal text = true) ∧
    (specHasPair text = false → specHasNumeral text = false → is_trading_signal text = false) := by
  have hnum : specHasNumeral text = text.any isDigitNat := any_isDigitNat_pyUpper text
  by_cases he : text = []
  · subst he
    refine ⟨?_, ?_, ?_⟩ <;> decide
  · have he' : text.isEmpty = false := by
      cases text with
      | nil => exact absurd rfl he
      | cons a t => rfl
    have hmain : is_trading_signal text =
        (specHasKeyword text && (specHasPair text || specHasNumeral text)) := by
      simp [is_trading_signal, specHasKeyword, specHasPair, he', hnum]
    rw [hmain]
    refine ⟨?_, ?_, ?_⟩
    · simp [Bool.and_eq_true, Bool.or_eq_true]
    · intro hk hn
      simp [hk, hn]
    · intro hp hn
      simp [hp, hn]

/-- Witness for C2 at a concrete input. -/
theorem is_trading_signal_iff_spec_witness :
    is_trading_signal (str "BUY 50000") = true :=
  (is_trading_signal_iff_spec (str "BUY 50000")).2.1 (by decide) (by decide)

/-- C3: on the concrete input "BUY BTCUSD entry 50000 tp 51500 sl 49000",
classification succeeds and extraction yields action BUY, pair BTC (the
first token of the declared pair-set order), entry 50000, tp 51500,
sl 49000, priority high. -/
theorem scenario_buy_btcusd :
    is_trading_signal (str "BUY BTCUSD entry 50000 tp 51500 sl 49000") = true ∧
    (extract_signal [] (str "BUY BTCUSD entry 50000 tp 51500 sl 49000")).action = str "BUY" ∧
    (extract_signal [] (str "BUY BTCUSD entry 50000 tp 51500 sl 49000")).pair = str "BTC" ∧
    (extract_signal [] (str "BUY BTCUSD entry 50000 tp 51500 sl 49000")).entry = str "50000" ∧
    (extract_signal [] (str "BUY BTCUSD entry 50000 tp 51500 sl 49000")).tp = str "51500" ∧
    (extract_signal [] (str "BUY BTCUSD entry 50000 tp 51500 sl 49000")).sl = str "49000" ∧
    (extract_signal [] (str "BUY BTCUSD entry 50000 tp 51500 sl 49000")).priority = str "high" := by
  decide

/-- A run of elements satisfying `p` is its own `takeWhile`. -/
theorem takeWhile_all (p : Nat → Bool) (l : Str) (hl : ∀ x ∈ l, p x = true) :
    l.takeWhile p = l := by
  induction l with
  | nil => rfl
  | cons a t ih =>
    rw [List.takeWhile_cons, if_pos (hl a (List.mem_cons_self a t))]
    rw [ih (fun x hx => hl x (List.mem_cons_of_mem a hx))]

/-- In a run of `p`-elements followed by a non-`p` element, `takeWhile`
captures exactly the run. -/
theorem takeWhile_all_append (p : Nat → Bool) (l : Str) (c : Nat) (r : Str)
    (hl : ∀ x ∈ l, p x = true) (hc : p c = false) :
    (l ++ c :: r).takeWhile p = l := by
  induction l with
  | nil => simp [List.takeWhile_cons, hc]
  | cons a t ih =>
    rw [List.cons_append, List.takeWhile_cons, if_pos (hl a (List.mem_cons_self a t))]
    rw [ih (fun x hx => hl x (List.mem_cons_of_mem a hx))]

/-- A non-empty digit run has the captured-numeral shape. -/
theorem numeralShape_digits (d1 : Str) (h1 : d1 ≠ [])
    (hd1 : ∀ x ∈ d1, isDigitNat x = true) : numeralShape d1 = true := by
  simp only [numeralShape]
  rw [takeWhile_all isDigitNat d1 hd1, List.drop_length]
  simp [h1]

/-- A digit run, a dot and a digit run have the captured-numeral shape. -/
theorem numeralShape_dot (d1 d2 : Str) (h1 : d1 ≠ [])
    (hd1 : ∀ x ∈ d1, isDigitNat x = true) (hd2 : ∀ x ∈ d2, isDigitNat x = true) :
    numeralShape (d1 ++ 46 :: d2) = true := by
  simp only [numeralShape]
  rw [takeWhile_all_append isDigitNat d1 46 d2 hd1 (by decide), List.drop_left]
  have hall : d2.all isDigitNat = true := List.all_eq_true.mpr hd2
  simp [h1, hall]

/-- Every value produced by one anchored regex attempt has the
captured-numeral shape. -/
theorem numeralShape_matchValueAt (label rest v : Str)
    (h : matchValueAt label rest = some v) : numeralShape v = true := by
  simp only [matchValueAt] at h
  split at h
  · split at h
    · simp at h
    · split at h
      · simp at h
      · rename_i hd1
        have hne : (List.takeWhile isDigitNat
            (List.drop (List.takeWhile (fun c => c == 58 || isPyWs c)
              (List.drop label.length rest)).length
              (List.drop label.length rest))) ≠ [] := by
          intro hz
          rw [hz] at hd1
          exact hd1 rfl
        split at h
        · obtain rfl := Option.some.inj h
          exact numeralShape_dot _ _ hne
            (fun x hx => List.mem_takeWhile_imp hx)
            (fun x hx => List.mem_takeWhile_imp hx)
        · obtain rfl := Option.some.inj h
          exact numeralShape_digits _ hne (fun x hx => List.mem_takeWhile_imp hx)
  · simp at h

/-- Every value found by the leftmost regex search has the captured-numeral
shape. -/
theorem numeralShape_searchValue (label t v : Str)
    (h : searchValue label t = some v) : numeralShape v = true := by
  induction t with
  | nil => simp [searchValue] at h
  | cons c t ih =>
    simp only [searchValue] at h
    split at h
    · rename_i w heq
      obtain rfl := Option.some.inj h
      exact numeralShape_matchValueAt _ _ _ heq
    · exact ih h

/-- Numeric fields of `extract_signal` are the sentinel or a captured
numeral. -/
theorem find_value_shape (upper label : Str) :
    find_value upper label = str "N/A" ∨ numeralShape (find_value upper label) = true := by
  unfold find_value
  split
  · rename_i v heq
    exact Or.inr (numeralShape_searchValue label upper v heq)
  · exact Or.inl rfl

/-- The pair-detection loop returns the empty sentinel or a token of the
scanned set. -/
theorem firstPair_mem (upper : Str) (ps : List Str) :
    firstPair upper ps = [] ∨ firstPair upper ps ∈ ps := by
  induction ps with
  | nil => exact Or.inl rfl
  | cons p t ih =>
    simp only [firstPair]
    split
    · exact Or.inr (List.mem_cons_self p t)
    · rcases ih with h | h
      · exact Or.inl h
      · exact Or.inr (List.mem_cons_of_mem p h)

/-- C7: `extract_signal` is total (the embedding is a total function built
from total string scans) and every field is populated: pair is the empty
sentinel or a recognized token, action is empty or BUY or SELL, each of
entry/tp/sl is the sentinel "N/A" or a parsed numeral, priority is high or
medium. -/
theorem extract_signal_total (now text : Str) :
    ((extract_signal now text).pair = [] ∨ (extract_signal now text).pair ∈ TRADING_PAIRS) ∧
    ((extract_signal now text).action = [] ∨ (extract_signal now text).action = str "BUY" ∨
      (extract_signal now text).action = str "SELL") ∧
    ((extract_signal now text).entry = str "N/A" ∨
      numeralShape (extract_signal now text).entry = true) ∧
    ((extract_signal now text).tp = str "N/A" ∨
      numeralShape (extract_signal now text).tp = true) ∧
    ((extract_signal now text).sl = str "N/A" ∨
      numeralShape (extract_signal now text).sl = true) ∧
    ((extract_signal now text).priority = str "high" ∨
      (extract_signal now text).priority = str "medium") := by
  simp only [extract_signal]
  refine ⟨firstPair_mem _ _, ?_, find_value_shape _ _, find_value_shape _ _,
    find_value_shape _ _, ?_⟩
  · rcases ite_eq_or_eq
        ((containsSub (str "BUY") (pyUpper text) || containsSub (str "LONG") (pyUpper text)) = true)
        (str "BUY")
        (if (containsSub (str "SELL") (pyUpper text) || containsSub (str "SHORT") (pyUpper text)) = true
          then str "SELL" else []) with h | h
    · rw [h]
      exact Or.inr (Or.inl rfl)
    · rw [h]
      rcases ite_eq_or_eq
          ((containsSub (str "SELL") (pyUpper text) || containsSub (str "SHORT") (pyUpper text)) = true)
          (str "SELL") ([] : Str) with h2 | h2
      · rw [h2]
        exact Or.inr (Or.inr rfl)
      · rw [h2]
        exact Or.inl rfl
  · exact ite_eq_or_eq _ _ _

/-- C9 counterexample: an interior tab is neither leading/trailing
whitespace (so `strip()` keeps it) nor a space or hyphen (so the `replace`
calls keep it), hence it survives normalisation — the output is not
whitespace-free, so it is not a canonical digit-only form. -/
theorem normalise_phone_counterexample :
    (normalise_phone (str "234\t8012345678")).any isPyWs = true := by decide

/-- C9 (amended): normalisation deletes every space and hyphen and trims
leading/trailing whitespace (other interior whitespace characters survive),
strips one leading plus, and rewrites a leading local-format 0 so that the
result never starts with the digit 0; the three example inputs 08012345678,
2348012345678 and +2348012345678 all normalize to 2348012345678. -/
theorem normalise_phone_amended :
    (∀ phone : Str, (∀ c ∈ normalise_phone phone, c ≠ 32 ∧ c ≠ 45) ∧
      (normalise_phone phone).head? ≠ some 48) ∧
    normalise_phone (str "08012345678") = str "2348012345678" ∧
    normalise_phone (str "2348012345678") = str "2348012345678" ∧
    normalise_phone (str "+2348012345678") = str "2348012345678" := by
  refine ⟨?_, by decide, by decide, by decide⟩
  intro phone
  simp only [normalise_phone]
  set p1 := (pyStrip phone).filter (fun c => c != 32 && c != 45) with hp1def
  have hp1 : ∀ x ∈ p1, x ≠ 32 ∧ x ≠ 45 := by
    intro x hx
    have h2 := (List.mem_filter.mp hx).2
    constructor <;> rintro rfl <;> simp at h2
  set p2 := if p1.head? = some 43 then p1.tail else p1 with hp2def
  have hp2 : ∀ x ∈ p2, x ≠ 32 ∧ x ≠ 45 := by
    rw [hp2def]
    split
    · intro x hx
      exact hp1 x (List.mem_of_mem_tail hx)
    · exact hp1
  have h234 : (str "234" : Str) = [50, 51, 52] := by decide
  constructor
  · split
    · intro c hc
      rcases List.mem_append.mp hc with h | h
      · rw [h234] at h
        have hc3 : c = 50 ∨ c = 51 ∨ c = 52 := by simpa using h
        rcases hc3 with rfl | rfl | rfl <;> exact ⟨by decide, by decide⟩
      · exact hp2 c (List.mem_of_mem_tail h)
    · exact hp2
  · split
    · rw [h234]
      simp
    · rename_i h48
      exact h48

/-- A swept record is a fixed point of the sweep step: the second pass
neither changes it nor reports a change. -/
theorem sweepUser_idem (now : Int) (u : User) :
    sweepUser now (sweepUser now u).1 = ((sweepUser now u).1, false) := by
  by_cases h : u.status = str "active"
  · cases he : u.expiry with
    | none => simp [sweepUser, h, he]
    | some e =>
      by_cases hn : now > e
      · have hne : ¬(str "inactive" = str "active") := by decide
        simp [sweepUser, h, he, hn, hne]
      · simp [sweepUser, h, he, hn]
  · simp [sweepUser, h]

/-- C4: re-running `check_subscriptions` immediately after a sweep is a
no-op — the user collection is unchanged record for record and the second
pass performs zero storage writes. -/
theorem check_subscriptions_idempotent (now : Int) (users : List User) :
    check_subscriptions now (check_subscriptions now users).1 =
      ((check_subscriptions now users).1, 0) := by
  set L := (check_subscriptions now users).1 with hL
  have hstable : ∀ u ∈ L, sweepUser now u = (u, false) := by
    rw [hL]
    simp only [check_subscriptions]
    intro u hu
    obtain ⟨x, hx, rfl⟩ := List.mem_map.mp hu
    obtain ⟨w, _, rfl⟩ := List.mem_map.mp hx
    exact sweepUser_idem now w
  simp only [check_subscriptions]
  rw [List.map_congr_left hstable]
  simp only [List.map_map, List.any_map, Function.comp, Prod.mk.injEq]
  have hid : (Prod.fst ∘ fun (a : User) => (a, false)) = id := rfl
  rw [hid, List.map_id]
  simp

/-- The sweep step never changes a record's id. -/
theorem sweepUser_id (now : Int) (u : User) : ((sweepUser now u).1).id = u.id := by
  by_cases h : u.status = str "active"
  · cases he : u.expiry with
    | none => simp [sweepUser, h, he]
    | some e => by_cases hn : now > e <;> simp [sweepUser, h, he, hn]
  · simp [sweepUser, h]

/-- Lookup commutes with a sweep pass (record ids are preserved). -/
theorem findUser_check_subscriptions (now : Int) (uid : Str) (users : List User) :
    findUser uid (check_subscriptions now users).1 =
      (findUser uid users).map (fun u => (sweepUser now u).1) := by
  simp only [check_subscriptions, findUser, List.map_map]
  rw [List.find?_map]
  have hpred : ((fun (u : User) => u.id == uid) ∘ (Prod.fst ∘ sweepUser now))
      = (fun (u : User) => u.id == uid) := by
    funext u
    simp [Function.comp, sweepUser_id]
  rw [hpred]
  rfl

/-- Successful activation makes the first matching record active with the
30-day expiry window. -/
theorem activate_user_found (now : Int) (uid : Str) (users : List User)
    (h : (activate_user now uid users).2.1 = true) :
    ∃ u : User, findUser uid (activate_user now uid users).1 =
      some { u with status := str "active", expiry := some (now + thirtyDays) } := by
  induction users with
  | nil => simp [activate_user] at h
  | cons u rest ih =>
    by_cases hid : u.id = uid
    · refine ⟨u, ?_⟩
      simp only [activate_user, if_pos hid, findUser]
      exact List.find?_cons_of_pos _ (by simp [hid])
    · simp only [activate_user, if_neg hid] at h ⊢
      obtain ⟨w, hw⟩ := ih h
      refine ⟨w, ?_⟩
      simp only [findUser] at hw ⊢
      rw [List.find?_cons_of_neg _ (by simp [hid])]
      exact hw

/-- C5: after a successful activation at time `T` the subscriber is active
with expiry `T + 30 days`, and a sweep at any strictly later time than the
expiry flips exactly that record to inactive and performs exactly one
storage write for the pass. -/
theorem activate_then_sweep (users : List User) (uid : Str) (T now : Int)
    (hact : (activate_user T uid users).2.1 = true)
    (hnow : now > T + thirtyDays) :
    (∃ u : User, findUser uid (activate_user T uid users).1 =
        some { u with status := str "active", expiry := some (T + thirtyDays) }) ∧
    (∃ u : User, findUser uid (check_subscriptions now (activate_user T uid users).1).1 =
        some { u with status := str "inactive", expiry := some (T + thirtyDays) }) ∧
    (check_subscriptions now (activate_user T uid users).1).2 = 1 := by
  obtain ⟨u, hu⟩ := activate_user_found T uid users hact
  have hsweep : sweepUser now { u with status := str "active", expiry := some (T + thirtyDays) }
      = ({ u with status := str "inactive", expiry := some (T + thirtyDays) }, true) := by
    simp [sweepUser, hnow]
  refine ⟨⟨u, hu⟩, ⟨u, ?_⟩, ?_⟩
  · rw [findUser_check_subscriptions, hu]
    simp only [Option.map_some']
    rw [hsweep]
  · have hmem : { u with status := str "active", expiry := some (T + thirtyDays) }
        ∈ (activate_user T uid users).1 :=
      List.mem_of_find?_eq_some hu
    have hany : (((activate_user T uid users).1.map (sweepUser now)).any Prod.snd) = true := by
      refine List.any_eq_true.mpr
        ⟨sweepUser now { u with status := str "active", expiry := some (T + thirtyDays) },
          List.mem_map_of_mem _ hmem, ?_⟩
      rw [hsweep]
    simp only [check_subscriptions]
    rw [if_pos hany]

/-- Witness for C5: one pending subscriber activated at time 0 and swept 31
days later. -/
theorem activate_then_sweep_witness :
    (∃ u : User, findUser (str "TR1") (activate_user 0 (str "TR1") [demoUser]).1 =
        some { u with status := str "active", expiry := some (0 + thirtyDays) }) ∧
    (∃ u : User, findUser (str "TR1")
        (check_subscriptions (31 * 86400) (activate_user 0 (str "TR1") [demoUser]).1).1 =
        some { u with status := str "inactive", expiry := some (0 + thirtyDays) }) ∧
    (check_subscriptions (31 * 86400) (activate_user 0 (str "TR1") [demoUser]).1).2 = 1 :=
  activate_then_sweep [demoUser] (str "TR1") 0 (31 * 86400) (by decide) (by decide)

/-- C10: when no record carries the requested id, `activate_user` and
`deactivate_user` return False, change no record and perform no storage
write. -/
theorem unknown_user_noop (now : Int) (uid : Str) (users : List User)
    (h : ∀ u ∈ users, u.id ≠ uid) :
    activate_user now uid users = (users, false, 0) ∧
    deactivate_user uid users = (users, false, 0) := by
  induction users with
  | nil => exact ⟨rfl, rfl⟩
  | cons u rest ih =>
    have hu : u.id ≠ uid := h u (List.mem_cons_self u rest)
    have hrest := ih (fun w hw => h w (List.mem_cons_of_mem u hw))
    constructor
    · simp only [activate_user, if_neg hu, hrest.1]
    · simp only [deactivate_user, if_neg hu, hrest.2]

/-- Witness for C10 at a concrete store and unknown id. -/
theorem unknown_user_noop_witness :
    activate_user 0 (str "TRX") [demoUser] = ([demoUser], false, 0) ∧
    deactivate_user (str "TRX") [demoUser] = ([demoUser], false, 0) :=
  unknown_user_noop 0 (str "TRX") [demoUser] (by decide)

/-- Full characterisation of one dispatch pass, for every transport: the
attempted ids are exactly the active users with a non-empty contact
address (in order), every active user's counter rises by one — with or
without an address — inactive users are untouched, and the pass ends in
exactly one storage write. -/
theorem trigger_alerts_run (wa : WaTransport) (signal : Signal) (users : List User) :
    (trigger_alerts wa signal users).attempted =
      (users.filter (fun u => u.status == str "active" && !u.phone.isEmpty)).map User.id ∧
    (trigger_alerts wa signal users).users =
      users.map (fun u => if u.status = str "active"
        then { u with alerts_received := u.alerts_received + 1 } else u) ∧
    (trigger_alerts wa signal users).writes = 1 := by
  refine ⟨?_, ?_, rfl⟩
  · induction users with
    | nil => rfl
    | cons u rest ih =>
      have hstep : (trigger_alerts wa signal (u :: rest)).attempted =
          (if u.status = str "active" then dispatchStep wa signal u else (u, [])).2 ++
          (trigger_alerts wa signal rest).attempted := by
        simp [trigger_alerts]
      rw [hstep, ih, List.filter_cons]
      by_cases ha : u.status = str "active"
      · by_cases hp : u.phone.isEmpty
        · simp [ha, hp, dispatchStep]
        · simp [ha, hp, dispatchStep]
      · simp [ha]
  · induction users with
    | nil => rfl
    | cons u rest ih =>
      have hstep : (trigger_alerts wa signal (u :: rest)).users =
          (if u.status = str "active" then dispatchStep wa signal u else (u, [])).1 ::
          (trigger_alerts wa signal rest).users := by
        simp [trigger_alerts]
      rw [hstep, ih, List.map_cons]
      by_cases ha : u.status = str "active"
      · by_cases hp : u.phone.isEmpty
        · simp [ha, hp, dispatchStep]
        · simp [ha, hp, dispatchStep]
      · simp [ha]

/-- C1 counterexample: a dispatch pass over one active user with an empty
contact address (N = 1, K = 1) makes no channel attempt, yet the user's
`alerts_received` rises from 0 to 1 — the increment sits outside the
address guard, so the claimed "no counter increment for them" fails. -/
theorem trigger_alerts_counterexample :
    (trigger_alerts okTransport demoSignal
        [{ demoUser with status := str "active", phone := [] }]).attempted = [] ∧
    (trigger_alerts okTransport demoSignal
        [{ demoUser with status := str "active", phone := [] }]).users.map
        User.alerts_received = [1] := by
  decide

/-- C1 (amended): a dispatch pass over N active users of whom K lack a
contact address attempts delivery to exactly the N − K users with an
address, and increments `alerts_received` by exactly one for every active
user — including the K without an address — leaving inactive users
untouched. -/
theorem trigger_alerts_amended (wa : WaTransport) (signal : Signal) (users : List User) :
    (trigger_alerts wa signal users).attempted =
      (users.filter (fun u => u.status == str "active" && !u.phone.isEmpty)).map User.id ∧
    (trigger_alerts wa signal users).users =
      users.map (fun u => if u.status = str "active"
        then { u with alerts_received := u.alerts_received + 1 } else u) :=
  ⟨(trigger_alerts_run wa signal users).1, (trigger_alerts_run wa signal users).2.1⟩

/-- C6: with a transport that always raises, the exception is caught at the
adapter boundary and converted to the failure result `false`, and the
attempted users of a dispatch pass are still exactly the eligible ones —
one user's channel failure never prevents attempts to subsequent users. -/
theorem failure_isolation (users : List User) (signal : Signal) (msg : Str) :
    (∀ (u : User) (s2 : Signal),
      send_whatsapp_alert (fun _ _ => Except.error msg) u s2 = false) ∧
    (trigger_alerts (fun _ _ => Except.error msg) signal users).attempted =
      (users.filter (fun u => u.status == str "active" && !u.phone.isEmpty)).map User.id :=
  ⟨fun _ _ => rfl, (trigger_alerts_run (fun _ _ => Except.error msg) signal users).1⟩

/-- C8: with either provider credential unset the push channel returns the
not-attempted outcome `none` (not a failure result) and makes no network
call, for every transport, token and signal; and a user without a
registered push token triggers no push attempt at all. -/
theorem push_not_attempted (cfg cfg2 : AlertConfig) (net net2 : PushTransport)
    (token : Str) (sig sig2 : Signal) (user : User)
    (hcfg : cfg.onesignal_app_id = [] ∨ cfg.onesignal_api_key = [])
    (htok : user.push_token = []) :
    send_push_notification cfg net token sig = (none, []) ∧
    trigger_phone_alarm cfg2 net2 user sig2 = [] := by
  constructor
  · rcases hcfg with h | h <;> simp [send_push_notification, h]
  · simp [trigger_phone_alarm, htok]

/-- Witness for C8 at concrete credentials, transports, token and user. -/
theorem push_not_attempted_witness :
    send_push_notification ⟨[], []⟩ (fun _ => Except.ok []) (str "tok") demoSignal = (none, []) ∧
    trigger_phone_alarm ⟨str "app", str "key"⟩ (fun _ => Except.ok []) demoUser demoSignal = [] :=
  push_not_attempted ⟨[], []⟩ ⟨str "app", str "key"⟩ (fun _ => Except.ok [])
    (fun _ => Except.ok []) (str "tok") demoSignal demoSignal demoUser (Or.inl rfl) rfl
